import Mathlib

/-
  Verification of the session persistence and consistency core of the
  azor-chatdog-ts conversational client.

  The definitions below are a shallow embedding of the TypeScript source:
  - src/types.ts                          (universal message / history types)
  - src/files/sessionFiles.ts             (Session Store: load / save)
  - src/files/wal.ts                      (Append Log: appendToWAL)
  - src/utils/messageConverter.ts         (Gemini format conversions)
  - src/llm/llamaClient.ts                (LlamaChatSession wrapper)
  - src/llm/geminiClient.ts               (GeminiChatSessionWrapper)
  - src/session/chatSession.ts            (ChatSession operations)
  - src/session/sessionManager.ts         (SessionManager.switchToSession)

  File contents on disk are modelled by small inductive types
  (absent / corrupt / well-formed record); JSON serialization of a
  well-typed record followed by parsing is the identity, so records are
  kept in structured form.  External inputs (the clock, provider calls,
  raw write success) are passed as explicit parameters.
-/

set_option autoImplicit false

namespace Azor

/-! ## Data model (src/types.ts) -/

/-- Message role: the string union type user | model. -/
inductive Role where
  | user
  | model
deriving DecidableEq, Repr

/-- One part of a message (interface MessagePart, a single text field). -/
structure MessagePart where
  text : String
deriving DecidableEq, Repr

/-- Universal message format (interface Message); the timestamp field is optional. -/
structure Message where
  role : Role
  parts : List MessagePart
  timestamp : Option String := none
deriving DecidableEq, Repr

/-- type ChatHistory = Message[] -/
abbrev ChatHistory := List Message

/-- interface LLMResponse: response text plus optional token count. -/
structure LLMResponse where
  text : String
  tokensUsed : Option Nat := none
deriving DecidableEq, Repr

/-- JavaScript `x || dflt` on an optional string: the default is taken both
when the value is missing and when it is the empty string (falsy). -/
def jsOr (s : Option String) (dflt : String) : String :=
  match s with
  | none => dflt
  | some v => if v = "" then dflt else v

/-! ## Session Store (src/files/sessionFiles.ts) -/

/-- Serialized message format in the JSON session file (interface SerializedMessage). -/
structure SerializedMessage where
  role : Role
  text : String
  timestamp : String
deriving DecidableEq, Repr

/-- Session metadata as stored in the JSON file (interface StoredSessionMetadata). -/
structure StoredSessionMetadata where
  session_id : String
  model : String
  system_role : String
  history : List SerializedMessage
deriving DecidableEq, Repr

/-- The session file for one session id on disk: missing, present with content
that is not valid JSON, or a well-formed record. -/
inductive SessionFile where
  | absent
  | corrupt
  | wellFormed (data : StoredSessionMetadata)
deriving DecidableEq, Repr

/-- Result of loadSessionHistory: the file after the call (the function performs
no write, mirrored by the fileAfter field), the returned history, and the
returned error message ([ChatHistory, string | null] in the source). -/
structure LoadResult where
  fileAfter : SessionFile
  history : ChatHistory
  error : Option String
deriving DecidableEq, Repr

/-- Conversion of one stored entry back to the universal format
(the map inside loadSessionHistory). -/
def loadMessage (entry : SerializedMessage) : Message :=
  { role := entry.role
  , parts := [{ text := entry.text }]
  , timestamp := some entry.timestamp }

/-- loadSessionHistory (sessionFiles.ts, lines 31 to 56).  Reads the session
file: missing file and undecodable content both yield an empty history with
an error message; a well-formed record is mapped back to universal format.
The function contains no write call, so the file is returned unchanged. -/
def loadSessionHistory (_sessionId : String) (file : SessionFile) : LoadResult :=
  match file with
  | .absent =>
      ⟨.absent, [], some "Session log file does not exist. Starting new session."⟩
  | .corrupt =>
      ⟨.corrupt, [], some "Cannot decode log file. Starting new session."⟩
  | .wellFormed logData =>
      ⟨.wellFormed logData, logData.history.map loadMessage, none⟩

/-- Result of saveSessionHistory: the file after the call, whether a write
was performed, and the returned [success, error] pair. -/
structure SaveResult where
  fileAfter : SessionFile
  wrote : Bool
  success : Bool
  error : Option String
deriving DecidableEq, Repr

/-- Serialization of one universal message (the map inside saveSessionHistory):
`timestamp: content.timestamp || new Date().toISOString()` and
`text: content.parts[0]?.text || ''`.  The current clock value is the
explicit parameter now. -/
def serializeMessage (now : String) (content : Message) : SerializedMessage :=
  { role := content.role
  , timestamp := jsOr content.timestamp now
  , text := jsOr (content.parts.head?.map MessagePart.text) "" }

/-- saveSessionHistory (sessionFiles.ts, lines 64 to 96).  A history with
fewer than two messages returns success without touching the file; otherwise
the full record is serialized and written, overwriting any prior file.
writeOk models whether the underlying writeFileSync call succeeds (its
failure is the caught branch returning [false, message]). -/
def saveSessionHistory (sessionId : String) (history : ChatHistory)
    (systemPrompt modelName : String) (now : String) (writeOk : Bool)
    (file : SessionFile) : SaveResult :=
  if history.length < 2 then
    -- Prevents saving empty/incomplete session
    ⟨file, false, true, none⟩
  else
    let jsonHistory := history.map (serializeMessage now)
    let logData : StoredSessionMetadata :=
      { session_id := sessionId
      , model := modelName
      , system_role := systemPrompt
      , history := jsonHistory }
    if writeOk then
      ⟨.wellFormed logData, true, true, none⟩
    else
      ⟨file, false, false, some "Error writing to session file."⟩

/-! ## Append Log (src/files/wal.ts) -/

/-- One WAL entry (interface WALEntry). -/
structure WALEntry where
  timestamp : String
  session_id : String
  model : String
  prompt : String
  response : String
  tokens_used : Nat
deriving DecidableEq, Repr

/-- The WAL file on disk: missing, present but of size zero, present with
content that is not valid JSON, or a well-formed array of entries. -/
inductive WALFile where
  | absent
  | empty
  | corrupt
  | wellFormed (entries : List WALEntry)
deriving DecidableEq, Repr

/-- Result of appendToWAL: the file after the call, the sequence of array
contents passed to writeFileSync in order (so the repair write is visible),
and the returned [success, error] pair. -/
structure WALAppendResult where
  fileAfter : WALFile
  writes : List (List WALEntry)
  success : Bool
  error : Option String
deriving DecidableEq, Repr

/-- appendToWAL (wal.ts, lines 18 to 60).  A missing or zero-size file starts
from an empty array; content that fails to parse is repaired in place by
writing an empty array before the append; otherwise the parsed array is
extended.  writeOk models whether the underlying writeFileSync calls succeed
(their failure is the outer caught branch returning [false, message]). -/
def appendToWAL (sessionId prompt responseText : String) (totalTokens : Nat)
    (modelName : String) (now : String) (writeOk : Bool)
    (file : WALFile) : WALAppendResult :=
  let walEntry : WALEntry :=
    { timestamp := now
    , session_id := sessionId
    , model := modelName
    , prompt := prompt
    , response := responseText
    , tokens_used := totalTokens }
  if writeOk then
    match file with
    | .absent => ⟨.wellFormed [walEntry], [[walEntry]], true, none⟩
    | .empty => ⟨.wellFormed [walEntry], [[walEntry]], true, none⟩
    | .corrupt =>
        -- Actually reset the corrupted file, then continue with empty data
        ⟨.wellFormed [walEntry], [[], [walEntry]], true, none⟩
    | .wellFormed data =>
        ⟨.wellFormed (data ++ [walEntry]), [data ++ [walEntry]], true, none⟩
  else
    ⟨file, [], false, some "Error writing to WAL file."⟩

/-! ## Gemini format conversions (src/utils/messageConverter.ts) -/

/-- One part of a Gemini Content value: a text part carries some text (which
may be the empty string); a non-text part carries none. -/
structure ContentPart where
  text : Option String
deriving DecidableEq, Repr

/-- Gemini Content: a role and a list of parts. -/
structure Content where
  role : Role
  parts : List ContentPart
deriving DecidableEq, Repr

/-- chatHistoryToGeminiContent (messageConverter.ts, lines 14 to 28).  The
source loop reads `entry.parts[0]?.text || ''` and pushes the entry only
when that text is non-empty, so every message whose first part has empty or
missing text is dropped. -/
def chatHistoryToGeminiContent : ChatHistory → List Content
  | [] => []
  | entry :: rest =>
      let text := jsOr (entry.parts.head?.map MessagePart.text) ""
      if text = "" then
        chatHistoryToGeminiContent rest
      else
        { role := entry.role, parts := [{ text := some text }] }
          :: chatHistoryToGeminiContent rest

/-- The inner loop of geminiContentToChatHistory: the first part that has a
text field with non-empty text, or the empty string if there is none. -/
def firstNonEmptyTextPart : List ContentPart → String
  | [] => ""
  | p :: rest =>
      match p.text with
      | some t => if t = "" then firstNonEmptyTextPart rest else t
      | none => firstNonEmptyTextPart rest

/-- geminiContentToChatHistory (messageConverter.ts, lines 35 to 59).  Each
content contributes its first non-empty text part; a content with no such
part is dropped. -/
def geminiContentToChatHistory : List Content → ChatHistory
  | [] => []
  | content :: rest =>
      let textPart := firstNonEmptyTextPart content.parts
      if textPart = "" then
        geminiContentToChatHistory rest
      else
        { role := content.role, parts := [{ text := textPart }], timestamp := none }
          :: geminiContentToChatHistory rest

/-! ## LLaMA backend wrapper (src/llm/llamaClient.ts) -/

/-- The placeholder model response substituted when the LLaMA call fails. -/
def llamaErrorText : String := "Przepraszam, wystąpił błąd podczas generowania odpowiedzi."

/-- LlamaChatSession.sendMessage (llamaClient.ts, lines 30 to 57).  The user
message is pushed first; promptResult models the raw llamaSession.prompt
call (external model inference): on success the trimmed response is pushed
as a model message, on failure a fixed placeholder model message is pushed
instead, so the history always grows by the user/model pair. -/
def llamaSendMessage (hist : ChatHistory) (text : String)
    (promptResult : Except String String) : ChatHistory × LLMResponse :=
  let userMessage : Message := { role := .user, parts := [{ text := text }] }
  let hist := hist ++ [userMessage]
  match promptResult with
  | .ok response =>
      let responseText := response.trim
      let assistantMessage : Message :=
        { role := .model, parts := [{ text := responseText }] }
      (hist ++ [assistantMessage], { text := responseText, tokensUsed := none })
  | .error _ =>
      let assistantMessage : Message :=
        { role := .model, parts := [{ text := llamaErrorText }] }
      (hist ++ [assistantMessage], { text := llamaErrorText, tokensUsed := none })

/-! ## Gemini backend wrapper (src/llm/geminiClient.ts) -/

/-- Modelled from the spec: the Gemini SDK chat session is an external
collaborator (spec section 4.1, concrete backend bodies excluded).  Its
state is its own Content history; a successful send appends the user turn
and the model turn and returns the response text with optional token usage,
and a provider-side failure makes the call fail with the history unchanged.
The outcome parameter models the provider result. -/
def geminiSdkSendMessage (sdkHist : List Content) (text : String)
    (outcome : Except String (String × Option Nat)) :
    Except String (List Content × String × Option Nat) :=
  match outcome with
  | .ok (responseText, tokens) =>
      .ok (sdkHist ++
            [ { role := .user, parts := [{ text := some text }] }
            , { role := .model, parts := [{ text := some responseText }] } ]
          , responseText, tokens)
  | .error e => .error e

/-- GeminiChatSessionWrapper.sendMessage (geminiClient.ts, lines 33 to 40).
The wrapper only forwards to the SDK session and repackages the response;
it has no catch branch, so a failing SDK call propagates unchanged and no
placeholder message is appended anywhere. -/
def geminiWrapperSendMessage (sdkHist : List Content) (text : String)
    (outcome : Except String (String × Option Nat)) :
    Except String (List Content × LLMResponse) :=
  match geminiSdkSendMessage sdkHist text outcome with
  | .ok (hist, responseText, tokens) =>
      .ok (hist, { text := responseText, tokensUsed := tokens })
  | .error e => .error e

/-- GeminiChatSessionWrapper.getHistory (geminiClient.ts, lines 45 to 48):
the adapter-synchronized view of the SDK history. -/
def geminiWrapperGetHistory (sdkHist : List Content) : ChatHistory :=
  geminiContentToChatHistory sdkHist

/-! ## Session (src/session/chatSession.ts) -/

/-- The keys of ENGINE_MAPPING (chatSession.ts, lines 19 to 22). -/
def ENGINE_MAPPING_keys : List String := ["LLAMA_CPP", "GEMINI"]

/-- ASCII uppercasing of one character, as toUpperCase acts on the engine
identifiers in use (ASCII letters, digits and underscore). -/
def upperChar (c : Char) : Char :=
  if 97 ≤ c.toNat ∧ c.toNat ≤ 122 then Char.ofNat (c.toNat - 32) else c

/-- JavaScript String.prototype.toUpperCase restricted to ASCII content. -/
def jsToUpperCase (s : String) : String :=
  ⟨s.data.map upperChar⟩

/-- The engine selection read in _initializeLLMSession (chatSession.ts,
line 55): `(process.env.ENGINE || 'GEMINI').toUpperCase()`.  The argument is
the raw environment value (none when the variable is unset). -/
def resolveEngine (envEngine : Option String) : String :=
  jsToUpperCase (jsOr envEngine "GEMINI")

/-- The engine validation in _initializeLLMSession (chatSession.ts, lines 54
to 59): the resolved engine must be a key of ENGINE_MAPPING, otherwise an
error is thrown before any client or chat handle is created. -/
def validateEngine (envEngine : Option String) : Except String String :=
  let engine := resolveEngine envEngine
  if ENGINE_MAPPING_keys.contains engine then
    .ok engine
  else
    .error "ENGINE musi być jedną z wartości: LLAMA_CPP, GEMINI"

/-- The state of an initialized ChatSession (chatSession.ts).  history is the
in-memory cache field _history; adapterHistory is what the active backend
chat handle _llmChatSession.getHistory() returns (the authoritative copy);
systemPrompt and modelName are the assistant prompt and the client model
name used when saving. -/
structure ChatSessionState where
  sessionId : String
  history : ChatHistory
  adapterHistory : ChatHistory
  systemPrompt : String
  modelName : String
deriving DecidableEq, Repr

/-- _initializeLLMSession (chatSession.ts, lines 53 to 82) as seen at
session construction: the engine is validated first and an unrecognized
value throws, so no chat handle exists; on success the chat handle is
created from the current in-memory history, which the handle then holds as
its own context. -/
def initializeLLMSession (envEngine : Option String)
    (sessionId systemPrompt modelName : String) (history : ChatHistory) :
    Except String ChatSessionState :=
  match validateEngine envEngine with
  | .error e => .error e
  | .ok _ =>
      .ok { sessionId := sessionId
          , history := history
          , adapterHistory := history
          , systemPrompt := systemPrompt
          , modelName := modelName }

/-- ChatSession.isEmpty (chatSession.ts, lines 212 to 214): computed from the
in-memory cache alone, with no resynchronization from the adapter. -/
def ChatSession.isEmpty (s : ChatSessionState) : Bool :=
  s.history.length < 2

/-- ChatSession.saveToFile (chatSession.ts, lines 103 to 119) on an
initialized session: the cache is resynchronized from the adapter handle
first, then saveSessionHistory is applied to the synced history and its
result returned unchanged. -/
def ChatSession.saveToFile (s : ChatSessionState) (now : String)
    (writeOk : Bool) (file : SessionFile) : ChatSessionState × SaveResult :=
  let s := { s with history := s.adapterHistory }
  (s, saveSessionHistory s.sessionId s.history s.systemPrompt s.modelName now writeOk file)

/-- Result of ChatSession.popLastExchange: the session after the call, the
session file after the call, and the returned boolean. -/
structure PopResult where
  session : ChatSessionState
  fileAfter : SessionFile
  success : Bool
deriving DecidableEq, Repr

/-- ChatSession.popLastExchange (chatSession.ts, lines 181 to 197): the
history is synchronized from the adapter; with fewer than two messages the
call returns false and changes nothing else; otherwise the last two entries
are removed (slice(0, -2)), the backend chat handle is rebuilt from the
truncated history by _initializeLLMSession, the result is saved, and true
is returned. -/
def ChatSession.popLastExchange (s : ChatSessionState) (now : String)
    (writeOk : Bool) (file : SessionFile) : PopResult :=
  let currentHistory := s.adapterHistory
  let s := { s with history := currentHistory }
  if currentHistory.length < 2 then
    ⟨s, file, false⟩
  else
    let truncated := currentHistory.take (currentHistory.length - 2)
    let s := { s with history := truncated, adapterHistory := truncated }
    let (s, save) := ChatSession.saveToFile s now writeOk file
    ⟨s, save.fileAfter, true⟩

/-- ChatSession.loadFromFile (chatSession.ts, lines 87 to 97): the stored
history is loaded; a load error is returned as is and no session is built;
on success a session is constructed with the loaded history and initialized,
so the fresh adapter handle replays that history. -/
def ChatSession.loadFromFile (systemPrompt modelName sessionId : String)
    (file : SessionFile) : Except String ChatSessionState :=
  let r := loadSessionHistory sessionId file
  match r.error with
  | some e => .error e
  | none =>
      .ok { sessionId := sessionId
          , history := r.history
          , adapterHistory := r.history
          , systemPrompt := systemPrompt
          , modelName := modelName }

/-! ## Session Manager (src/session/sessionManager.ts) -/

/-- The SessionManager state: the single current session, if any. -/
structure ManagerState where
  currentSession : Option ChatSessionState
deriving DecidableEq, Repr

/-- The tuple returned by switchToSession (sessionManager.ts):
[new_session, save_attempted, previous_session_id, load_successful,
load_error, has_history]. -/
structure SwitchResult where
  newSession : Option ChatSessionState
  saveAttempted : Bool
  previousSessionId : Option String
  loadSuccessful : Bool
  loadError : Option String
  hasHistory : Bool
deriving DecidableEq, Repr

/-- Result of switchToSession together with its state effects: the manager
after the call and the current session file after the save-before-switch. -/
structure SwitchOutcome where
  manager : ManagerState
  currentFileAfter : SessionFile
  result : SwitchResult
deriving DecidableEq, Repr

/-- SessionManager.switchToSession (sessionManager.ts, lines 66 to 100).  The
current session, if any, is saved first (a save failure is only printed);
then the target is loaded.  On load failure the current session field is not
reassigned and the error is returned; on success the loaded session becomes
current.  currentFile is the disk file of the current session id, targetFile
the disk file of the target id. -/
def SessionManager.switchToSession (m : ManagerState) (sessionId : String)
    (systemPrompt modelName now : String) (writeOk : Bool)
    (currentFile targetFile : SessionFile) : SwitchOutcome :=
  let saved :
      ManagerState × SessionFile × Bool × Option String :=
    match m.currentSession with
    | some cur =>
        let (cur, saveRes) := ChatSession.saveToFile cur now writeOk currentFile
        (⟨some cur⟩, saveRes.fileAfter, true, some cur.sessionId)
    | none => (m, currentFile, false, none)
  let (m, currentFileAfter, saveAttempted, previousSessionId) := saved
  match ChatSession.loadFromFile systemPrompt modelName sessionId targetFile with
  | .error e =>
      ⟨m, currentFileAfter, ⟨none, saveAttempted, previousSessionId, false, some e, false⟩⟩
  | .ok newSession =>
      ⟨⟨some newSession⟩, currentFileAfter,
        ⟨some newSession, saveAttempted, previousSessionId, true, none,
          !ChatSession.isEmpty newSession⟩⟩

/-! ## Helper definitions for concrete scenarios -/

/-- A concrete complete exchange: the spec scenario user message hello. -/
def helloMsg : Message := { role := .user, parts := [{ text := "hello" }], timestamp := some "t1" }

/-- A concrete complete exchange: the spec scenario model message hi. -/
def hiMsg : Message := { role := .model, parts := [{ text := "hi" }], timestamp := some "t2" }

/-- A concrete initialized session holding the hello/hi exchange in its
adapter handle while its cache is stale (empty). -/
def cexSession : ChatSessionState :=
  { sessionId := "orig"
  , history := []
  , adapterHistory := [helloMsg, hiMsg]
  , systemPrompt := "sp"
  , modelName := "m" }

/-- Boolean side condition under which one stored message round-trips
exactly: a single part, and a present non-empty timestamp. -/
def roundTrippable (m : Message) : Bool :=
  m.parts.length == 1 &&
    (match m.timestamp with
     | some t => !(t == "")
     | none => false)

/-! ## Helper lemmas -/

/-- Serialization followed by load reconstruction is the identity on a
message with a single part and a present non-empty timestamp. -/
theorem loadMessage_serializeMessage (now : String) (m : Message)
    (h : roundTrippable m = true) : loadMessage (serializeMessage now m) = m := by
  obtain ⟨role, parts, ts⟩ := m
  simp only [roundTrippable, Bool.and_eq_true, beq_iff_eq] at h
  obtain ⟨hp, ht⟩ := h
  cases parts with
  | nil => simp at hp
  | cons p rest =>
    cases rest with
    | cons q r => simp at hp
    | nil =>
      cases ts with
      | none => simp at ht
      | some t =>
        obtain ⟨ptext⟩ := p
        simp only [Bool.not_eq_eq_eq_not, Bool.not_true, beq_eq_false_iff_ne, ne_eq] at ht
        by_cases hpt : ptext = "" <;>
          simp [loadMessage, serializeMessage, jsOr, ht, hpt]

/-- Mapping serialization then load reconstruction over a history of
round-trippable messages is the identity. -/
theorem history_roundtrip (now : String) (H : ChatHistory)
    (h : H.all roundTrippable = true) :
    (H.map (serializeMessage now)).map loadMessage = H := by
  induction H with
  | nil => rfl
  | cons a l ih =>
    simp only [List.all_cons, Bool.and_eq_true] at h
    simp [loadMessage_serializeMessage now a h.1, ih h.2]

/-- chatHistoryToGeminiContent never lengthens its input. -/
theorem chatHistoryToGeminiContent_length_le (h : ChatHistory) :
    (chatHistoryToGeminiContent h).length ≤ h.length := by
  induction h with
  | nil => simp [chatHistoryToGeminiContent]
  | cons a l ih =>
    by_cases ha : jsOr (a.parts.head?.map MessagePart.text) "" = "" <;>
      simp [chatHistoryToGeminiContent, ha] <;> omega

/-- geminiContentToChatHistory never lengthens its input. -/
theorem geminiContentToChatHistory_length_le (cs : List Content) :
    (geminiContentToChatHistory cs).length ≤ cs.length := by
  induction cs with
  | nil => simp [geminiContentToChatHistory]
  | cons c l ih =>
    by_cases hc : firstNonEmptyTextPart c.parts = "" <;>
      simp [geminiContentToChatHistory, hc] <;> omega

/-! ## Claim theorems -/

/-- Claim C1, counterexample: a failed backend call on the Gemini wrapper
(geminiClient.ts, lines 33 to 40) does not append a placeholder model
message and does not grow the adapter-synchronized history by 2; the
wrapper has no catch branch, so the error propagates unchanged and the
synchronized history still has length 0 after the failed call, not 2. -/
theorem geminiWrapperSendMessage_failure_cex :
    geminiWrapperSendMessage [] "hello" (Except.error "provider failure")
      = Except.error "provider failure"
    ∧ (geminiWrapperGetHistory []).length = 0 := ⟨rfl, rfl⟩

/-- Claim C1 (amended): on the LLaMA wrapper every sendMessage call grows the
history by exactly 2, appending one user message followed by one model
message, including on backend failure where a placeholder model message is
appended; on the Gemini wrapper a failed backend call instead propagates the
error unchanged, producing no new history and no placeholder. -/
theorem sendMessage_history_growth (hist : ChatHistory) (text : String)
    (promptResult : Except String String) (sdkHist : List Content) (e : String) :
    ((llamaSendMessage hist text promptResult).1.length = hist.length + 2
      ∧ ((llamaSendMessage hist text promptResult).1.drop hist.length).map Message.role
          = [Role.user, Role.model])
    ∧ geminiWrapperSendMessage sdkHist text (Except.error e) = Except.error e := by
  refine ⟨⟨?_, ?_⟩, rfl⟩ <;> cases promptResult <;>
    simp [llamaSendMessage, List.append_assoc, List.drop_left]

/-- Claim C2, counterexample: a non-empty history of length 1 does not round
trip: save reports success but writes nothing, so the subsequent load fails
and returns an empty history different from the saved one. -/
theorem save_load_roundtrip_cex :
    (saveSessionHistory "s1" [helloMsg] "sp" "m" "t0" true SessionFile.absent).success = true
    ∧ (saveSessionHistory "s1" [helloMsg] "sp" "m" "t0" true SessionFile.absent).fileAfter
        = SessionFile.absent
    ∧ (loadSessionHistory "s1"
        (saveSessionHistory "s1" [helloMsg] "sp" "m" "t0" true SessionFile.absent).fileAfter).error.isSome
        = true
    ∧ (loadSessionHistory "s1"
        (saveSessionHistory "s1" [helloMsg] "sp" "m" "t0" true SessionFile.absent).fileAfter).history
        ≠ [helloMsg] := by
  refine ⟨rfl, rfl, rfl, ?_⟩
  decide

/-- Claim C2 (amended): for every history with at least two messages, each
having a single part and a present non-empty timestamp, saving and then
loading under the same session id yields exactly the original history with
role, text and timestamp preserved.  Histories of length below two are not
persisted at all, and a missing timestamp would be replaced by the save-time
clock value, so both conditions are necessary for the round trip. -/
theorem save_load_roundtrip (sessionId systemPrompt modelName now : String)
    (H : ChatHistory) (file : SessionFile)
    (h2 : 2 ≤ H.length) (hm : H.all roundTrippable = true) :
    (loadSessionHistory sessionId
        (saveSessionHistory sessionId H systemPrompt modelName now true file).fileAfter).error
      = none
    ∧ (loadSessionHistory sessionId
        (saveSessionHistory sessionId H systemPrompt modelName now true file).fileAfter).history
      = H := by
  have hlt : ¬ H.length < 2 := by omega
  simp [saveSessionHistory, hlt, loadSessionHistory, List.map_map]
  have := history_roundtrip now H hm
  simpa [List.map_map] using this

/-- Claim C2 witness: the concrete hello/hi exchange round trips through
save and load. -/
theorem save_load_roundtrip_witness :
    (2 ≤ ([helloMsg, hiMsg] : ChatHistory).length
      ∧ ([helloMsg, hiMsg] : ChatHistory).all roundTrippable = true)
    ∧ ((loadSessionHistory "s1"
          (saveSessionHistory "s1" [helloMsg, hiMsg] "sp" "m" "t0" true SessionFile.absent).fileAfter).error
        = none
      ∧ (loadSessionHistory "s1"
          (saveSessionHistory "s1" [helloMsg, hiMsg] "sp" "m" "t0" true SessionFile.absent).fileAfter).history
        = [helloMsg, hiMsg]) :=
  ⟨⟨by decide, by decide⟩,
    save_load_roundtrip "s1" "sp" "m" "t0" [helloMsg, hiMsg] SessionFile.absent
      (by decide) (by decide)⟩

/-- Claim C3: appending one entry to a corrupted append-log file succeeds;
the file is first rewritten as a valid empty array and then as the valid
one-element array holding the new entry, and no failure is reported. -/
theorem appendToWAL_selfheal (sessionId prompt responseText : String)
    (totalTokens : Nat) (modelName now : String) :
    appendToWAL sessionId prompt responseText totalTokens modelName now true WALFile.corrupt
      = { fileAfter := .wellFormed
            [⟨now, sessionId, modelName, prompt, responseText, totalTokens⟩]
        , writes := [[], [⟨now, sessionId, modelName, prompt, responseText, totalTokens⟩]]
        , success := true
        , error := none } := rfl

/-- Claim C4: when loading the target session fails (missing file or
unparseable content), switchToSession reports the load error from the
Session Store and the manager still holds the same session: same id, same
adapter history, with only the in-memory cache resynchronized from the
adapter by the save-before-switch step. -/
theorem switchToSession_load_failure (cur : ChatSessionState)
    (sessionId systemPrompt modelName now : String) (writeOk : Bool)
    (currentFile targetFile : SessionFile)
    (h : targetFile = SessionFile.absent ∨ targetFile = SessionFile.corrupt) :
    (SessionManager.switchToSession ⟨some cur⟩ sessionId systemPrompt modelName now
        writeOk currentFile targetFile).result.loadSuccessful = false
    ∧ (SessionManager.switchToSession ⟨some cur⟩ sessionId systemPrompt modelName now
        writeOk currentFile targetFile).result.loadError
      = (loadSessionHistory sessionId targetFile).error
    ∧ (SessionManager.switchToSession ⟨some cur⟩ sessionId systemPrompt modelName now
        writeOk currentFile targetFile).manager.currentSession
      = some { cur with history := cur.adapterHistory } := by
  rcases h with rfl | rfl <;> exact ⟨rfl, rfl, rfl⟩

/-- Claim C4 witness: switching from the concrete hello/hi session to the
nonexistent id zzz fails and keeps the original session active. -/
theorem switchToSession_load_failure_witness :
    (SessionManager.switchToSession ⟨some cexSession⟩ "zzz" "sp" "m" "t0"
        true SessionFile.absent SessionFile.absent).result.loadSuccessful = false
    ∧ (SessionManager.switchToSession ⟨some cexSession⟩ "zzz" "sp" "m" "t0"
        true SessionFile.absent SessionFile.absent).result.loadError
      = (loadSessionHistory "zzz" SessionFile.absent).error
    ∧ (SessionManager.switchToSession ⟨some cexSession⟩ "zzz" "sp" "m" "t0"
        true SessionFile.absent SessionFile.absent).manager.currentSession
      = some { cexSession with history := cexSession.adapterHistory } :=
  switchToSession_load_failure cexSession "zzz" "sp" "m" "t0" true
    SessionFile.absent SessionFile.absent (Or.inl rfl)

/-- Claim C5: popLastExchange returns false and leaves the adapter history
and the file unchanged when the synchronized history has fewer than two
messages; otherwise it returns true, removes exactly the last two messages
(the removed suffix has length two and recombines to the original), rebuilds
the adapter handle on the truncated history (session cache and adapter
history both equal it), and delegates persistence of the truncated history
to the Session Store. -/
theorem popLastExchange_spec (s : ChatSessionState) (now : String)
    (writeOk : Bool) (file : SessionFile) :
    (ChatSession.popLastExchange s now writeOk file).success
      = !decide (s.adapterHistory.length < 2)
    ∧ (ChatSession.popLastExchange s now writeOk file).session.adapterHistory
      = (if s.adapterHistory.length < 2 then s.adapterHistory
         else s.adapterHistory.take (s.adapterHistory.length - 2))
    ∧ (ChatSession.popLastExchange s now writeOk file).session.history
      = (if s.adapterHistory.length < 2 then s.adapterHistory
         else s.adapterHistory.take (s.adapterHistory.length - 2))
    ∧ (ChatSession.popLastExchange s now writeOk file).session.sessionId = s.sessionId
    ∧ s.adapterHistory.take (s.adapterHistory.length - 2)
        ++ s.adapterHistory.drop (s.adapterHistory.length - 2) = s.adapterHistory
    ∧ (s.adapterHistory.drop (s.adapterHistory.length - 2)).length
      = min 2 s.adapterHistory.length
    ∧ (ChatSession.popLastExchange s now writeOk file).fileAfter
      = (if s.adapterHistory.length < 2 then file
         else (saveSessionHistory s.sessionId
            (s.adapterHistory.take (s.adapterHistory.length - 2))
            s.systemPrompt s.modelName now writeOk file).fileAfter) := by
  refine ⟨?_, ?_, ?_, ?_, List.take_append_drop _ _, ?_, ?_⟩ <;>
    by_cases h : s.adapterHistory.length < 2 <;>
      simp [ChatSession.popLastExchange, ChatSession.saveToFile, h] <;> omega

/-- Claim C6: saving a history with fewer than two messages returns success
without any error and performs no write at all, leaving whatever file
existed for that id (including no file) exactly as it was. -/
theorem saveSessionHistory_short_noop (sessionId : String) (history : ChatHistory)
    (systemPrompt modelName now : String) (writeOk : Bool) (file : SessionFile)
    (h : history.length < 2) :
    saveSessionHistory sessionId history systemPrompt modelName now writeOk file
      = ⟨file, false, true, none⟩ := by
  simp [saveSessionHistory, h]

/-- Claim C6 witness: saving a single-message history over a pre-existing
record leaves that record untouched and reports success without a write. -/
theorem saveSessionHistory_short_noop_witness :
    ([helloMsg] : ChatHistory).length < 2
    ∧ saveSessionHistory "s1" [helloMsg] "sp" "m" "t0" true
        (SessionFile.wellFormed ⟨"s1", "m", "sp", [⟨Role.user, "old", "t9"⟩]⟩)
      = ⟨SessionFile.wellFormed ⟨"s1", "m", "sp", [⟨Role.user, "old", "t9"⟩]⟩,
          false, true, none⟩ :=
  ⟨by decide,
    saveSessionHistory_short_noop "s1" [helloMsg] "sp" "m" "t0" true
      (SessionFile.wellFormed ⟨"s1", "m", "sp", [⟨Role.user, "old", "t9"⟩]⟩)
      (by decide)⟩

/-- Claim C7: loadSessionHistory performs no write, so the stored file is
identical after every load; in particular a corrupt file yields an error
telling the caller to start a new session, an empty returned history, and
the corrupt file itself stays on disk unmodified. -/
theorem loadSessionHistory_never_modifies (sessionId : String) (file : SessionFile) :
    (loadSessionHistory sessionId file).fileAfter = file
    ∧ (loadSessionHistory sessionId SessionFile.corrupt).error
        = some "Cannot decode log file. Starting new session."
    ∧ (loadSessionHistory sessionId SessionFile.corrupt).history = []
    ∧ (loadSessionHistory sessionId SessionFile.corrupt).fileAfter
        = SessionFile.corrupt := by
  refine ⟨?_, rfl, rfl, rfl⟩
  cases file <;> rfl

/-- Claim C8, counterexample: the identifier gemini (lowercase) is not one of
the recognized engine tags, yet initialization does not fail: the engine
string is uppercased before the mapping lookup, so validation accepts it and
a chat handle is created. -/
theorem validateEngine_lowercase_cex :
    "gemini" ∉ ENGINE_MAPPING_keys
    ∧ validateEngine (some "gemini") = Except.ok "GEMINI"
    ∧ (initializeLLMSession (some "gemini") "s1" "sp" "m" []).isOk = true := by
  refine ⟨by decide, ?_, ?_⟩ <;> rfl

/-- Claim C8 (amended): the engine identifier is first defaulted to GEMINI
when unset or empty and then uppercased; initialization fails with the
configuration error exactly when the resulting string is not a key of
ENGINE_MAPPING, and in that case no session state (hence no chat handle) is
created, while a recognized resolved identifier initializes the handle from
the given history. -/
theorem engine_validation_characterization (envEngine : Option String)
    (sessionId systemPrompt modelName : String) (history : ChatHistory) :
    (match initializeLLMSession envEngine sessionId systemPrompt modelName history with
     | .ok s => resolveEngine envEngine ∈ ENGINE_MAPPING_keys
         ∧ s.adapterHistory = history ∧ s.history = history
     | .error _ => resolveEngine envEngine ∉ ENGINE_MAPPING_keys) := by
  by_cases h : resolveEngine envEngine ∈ ENGINE_MAPPING_keys <;>
    simp [initializeLLMSession, validateEngine, List.contains, List.elem_iff, h]

/-- Claim C9, counterexample: a Gemini content whose first part has empty
text but whose second part is non-empty is kept by
geminiContentToChatHistory (the loop scans past empty parts), so the output
is not shorter than the input even though the input contains a message with
an empty first text part. -/
theorem geminiContentToChatHistory_cex :
    (geminiContentToChatHistory
        [{ role := Role.user, parts := [{ text := some "" }, { text := some "x" }] }]).length
      = ([{ role := Role.user, parts := [{ text := some "" }, { text := some "x" }] }] :
          List Content).length
    ∧ ([{ role := Role.user, parts := [{ text := some "" }, { text := some "x" }] }] :
          List Content).map (fun c => c.parts.head?.map ContentPart.text)
      = [some (some "")] := ⟨rfl, rfl⟩

/-- Claim C9 (amended): chatHistoryToGeminiContent drops every message whose
first part has empty or missing text, so any history containing such a
message maps to a strictly shorter list; geminiContentToChatHistory drops
every content that has no non-empty text part in any position, so any list
containing such a content maps to a strictly shorter list.  A content whose
first part is empty but that has a later non-empty part is kept. -/
theorem converters_drop_messages (h : ChatHistory) (cs : List Content)
    (hm : ∃ m ∈ h, jsOr (m.parts.head?.map MessagePart.text) "" = "")
    (hc : ∃ c ∈ cs, firstNonEmptyTextPart c.parts = "") :
    (chatHistoryToGeminiContent h).length < h.length
    ∧ (geminiContentToChatHistory cs).length < cs.length := by
  constructor
  · clear hc
    revert hm
    induction h with
    | nil =>
      intro hm
      obtain ⟨m, hmem, _⟩ := hm
      simp at hmem
    | cons a l ih =>
      intro hm
      obtain ⟨m, hmem, hdrop⟩ := hm
      rw [List.mem_cons] at hmem
      rcases hmem with rfl | hmem
      · have := chatHistoryToGeminiContent_length_le l
        simp [chatHistoryToGeminiContent, hdrop]
        omega
      · have hlt := ih ⟨m, hmem, hdrop⟩
        by_cases ha : jsOr (a.parts.head?.map MessagePart.text) "" = "" <;>
          simp [chatHistoryToGeminiContent, ha] <;> omega
  · clear hm
    revert hc
    induction cs with
    | nil =>
      intro hc
      obtain ⟨c, hmem, _⟩ := hc
      simp at hmem
    | cons a l ih =>
      intro hc
      obtain ⟨c, hmem, hdrop⟩ := hc
      rw [List.mem_cons] at hmem
      rcases hmem with rfl | hmem
      · have := geminiContentToChatHistory_length_le l
        simp [geminiContentToChatHistory, hdrop]
        omega
      · have hlt := ih ⟨c, hmem, hdrop⟩
        by_cases ha : firstNonEmptyTextPart a.parts = "" <;>
          simp [geminiContentToChatHistory, ha] <;> omega

/-- Claim C9 witness: a history holding a message with no parts and a content
list holding a content with no parts both shrink under conversion. -/
theorem converters_drop_messages_witness :
    ((∃ m ∈ ([{ role := Role.user, parts := [] }] : ChatHistory),
        jsOr (m.parts.head?.map MessagePart.text) "" = "")
      ∧ (∃ c ∈ ([{ role := Role.user, parts := [] }] : List Content),
        firstNonEmptyTextPart c.parts = ""))
    ∧ ((chatHistoryToGeminiContent [{ role := Role.user, parts := [] }]).length
        < ([{ role := Role.user, parts := [] }] : ChatHistory).length
      ∧ (geminiContentToChatHistory [{ role := Role.user, parts := [] }]).length
        < ([{ role := Role.user, parts := [] }] : List Content).length) :=
  ⟨⟨by decide, by decide⟩,
    converters_drop_messages _ _ (by decide) (by decide)⟩

/-- Claim C10: isEmpty reads only the in-memory cache (true exactly when the
cache holds fewer than two messages), while saveToFile resynchronizes from
the adapter and writes exactly when the adapter history has at least two
messages; so whenever cache and adapter disagree about having at least two
messages, isEmpty equals the write flag, meaning its prediction (empty
sessions produce no write) is wrong. -/
theorem isEmpty_save_disagreement (s : ChatSessionState) (now : String)
    (file : SessionFile)
    (h : ¬ (s.history.length < 2 ↔ s.adapterHistory.length < 2)) :
    ChatSession.isEmpty s = decide (s.history.length < 2)
    ∧ (ChatSession.saveToFile s now true file).2.wrote
        = !decide (s.adapterHistory.length < 2)
    ∧ ChatSession.isEmpty s = (ChatSession.saveToFile s now true file).2.wrote := by
  have hw : (ChatSession.saveToFile s now true file).2.wrote
      = !decide (s.adapterHistory.length < 2) := by
    by_cases h2 : s.adapterHistory.length < 2 <;>
      simp [ChatSession.saveToFile, saveSessionHistory, h2]
  refine ⟨rfl, hw, ?_⟩
  rw [hw]
  by_cases h1 : s.history.length < 2 <;> by_cases h2 : s.adapterHistory.length < 2
  · exact absurd (iff_of_true h1 h2) h
  · simp [ChatSession.isEmpty, h1, h2]
  · simp [ChatSession.isEmpty, h1, h2]
  · exact absurd (iff_of_false h1 h2) h

/-- Claim C10 witness: a session whose cache is empty while its adapter holds
a complete exchange looks empty to isEmpty, yet saveToFile does write. -/
theorem isEmpty_save_disagreement_witness :
    (¬ (cexSession.history.length < 2 ↔ cexSession.adapterHistory.length < 2))
    ∧ (ChatSession.isEmpty cexSession = decide (cexSession.history.length < 2)
      ∧ (ChatSession.saveToFile cexSession "t0" true SessionFile.absent).2.wrote
          = !decide (cexSession.adapterHistory.length < 2)
      ∧ ChatSession.isEmpty cexSession
          = (ChatSession.saveToFile cexSession "t0" true SessionFile.absent).2.wrote) :=
  ⟨by decide, isEmpty_save_disagreement cexSession "t0" SessionFile.absent (by decide)⟩

end Azor
